import Mathlib

/-!
Verification of the token-lifecycle subsystem of the todo-app repository:
the JWT manager (`pkg/jwt/jwt.go`), the auth service
(`internal/service/auth_service.go`), the refresh-token repository
(`internal/repository/refresh_token_repository.go`) and the bearer-auth
middleware (`internal/middleware/auth.go`), shallowly embedded in Lean.

Modelling conventions:
* `uuid.UUID` values (user IDs, record IDs, token IDs) are `Nat`.
* `time.Time` / `time.Duration` are `Nat` nanoseconds since an epoch.
* HMAC signing is symbolic: a signed token carries the key it was signed
  with and whether its algorithm header is the HMAC family; "the signature
  verifies against secret s" is "the carried key equals s and the
  algorithm is HMAC".  bcrypt is symbolic in the same way.
* Repository calls against PostgreSQL are modelled by their SQL semantics
  over a list of rows; I/O never fails in the model.
* `uuid.New()` and `time.Now()` results are explicit parameters.
-/

namespace TodoApp

/-- A subject identity (`uuid.UUID` user ID in Go). -/
abbrev Identity := Nat

/-- `jwt.TokenType`: discriminates access and refresh tokens. -/
inductive TokenType where
  | access
  | refresh
deriving DecidableEq, Repr

/-- A signed JWT, symbolically: the claims of `jwt.Claims` plus the key it
was signed with (`key`) and whether its `alg` header is in the HMAC family
(`algHMAC`).  Serialization is treated as injective, so this structure also
stands for the token's wire string. -/
structure Tok where
  userID : Identity
  tokenType : TokenType
  issuedAt : Nat
  expiresAt : Nat
  jti : Nat
  key : Nat
  algHMAC : Bool
deriving DecidableEq, Repr

/-- The claims returned by a successful parse (`jwt.Claims`). -/
structure Claims where
  userID : Identity
  tokenType : TokenType
  issuedAt : Nat
  expiresAt : Nat
  jti : Nat
deriving DecidableEq, Repr

/-- `jwt.Manager`: two independent secrets and two TTLs. -/
structure Manager where
  accessSecret : Nat
  refreshSecret : Nat
  accessTTL : Nat
  refreshTTL : Nat
deriving DecidableEq, Repr

/-- `Manager.generate`: stamps issued-at = now, expires-at = now + ttl, a
fresh token ID, and signs with `secret` using HMAC-SHA256. -/
def generate (userID : Identity) (tokenType : TokenType) (secret ttl : Nat)
    (now jti : Nat) : Tok :=
  { userID := userID
    tokenType := tokenType
    issuedAt := now
    expiresAt := now + ttl
    jti := jti
    key := secret
    algHMAC := true }

/-- `Manager.GenerateAccessToken`. -/
def Manager.generateAccessToken (m : Manager) (userID : Identity)
    (now jti : Nat) : Tok :=
  generate userID .access m.accessSecret m.accessTTL now jti

/-- `Manager.GenerateRefreshToken`. -/
def Manager.generateRefreshToken (m : Manager) (userID : Identity)
    (now jti : Nat) : Tok :=
  generate userID .refresh m.refreshSecret m.refreshTTL now jti

/-- `Manager.parse` at the level of a decoded token.  The keyfunc rejects
non-HMAC algorithms; `jwt.ParseWithClaims` rejects a signature that does not
verify against `secret` and an expired token (`exp` must lie strictly in the
future); finally the embedded token type must equal `expectedType`. -/
def parseTok (t : Tok) (secret : Nat) (expectedType : TokenType)
    (now : Nat) : Option Claims :=
  if ¬ t.algHMAC then none
  else if t.key ≠ secret then none
  else if ¬ now < t.expiresAt then none
  else if t.tokenType ≠ expectedType then none
  else some
    { userID := t.userID
      tokenType := t.tokenType
      issuedAt := t.issuedAt
      expiresAt := t.expiresAt
      jti := t.jti }

/-- `Manager.ParseAccessToken`. -/
def Manager.parseAccessToken (m : Manager) (t : Tok) (now : Nat) :
    Option Claims :=
  parseTok t m.accessSecret .access now

/-- `Manager.ParseRefreshToken`. -/
def Manager.parseRefreshToken (m : Manager) (t : Tok) (now : Nat) :
    Option Claims :=
  parseTok t m.refreshSecret .refresh now

/-- `7 * 24 * time.Hour` in nanoseconds (`time.Hour = 3.6e12 ns`). -/
def sevenDays : Nat := 7 * 24 * 60 * 60 * 1000000000

/-- A bcrypt hash, symbolically: the hash of a plaintext determines exactly
the set of plaintexts that verify against it. -/
structure Hashed where
  of : String
deriving DecidableEq, Repr

/-- `hash.Password`: bcrypt-hash a plaintext password. -/
def hashPassword (plain : String) : Hashed := ⟨plain⟩

/-- `hash.CheckPassword`: `true` iff the plaintext matches the hash
(`bcrypt.CompareHashAndPassword` returns nil). -/
def checkPassword (plain : String) (hashed : Hashed) : Bool :=
  hashed = hashPassword plain

/-- `domain.User` (timestamps as `Nat`; `DeletedAt` omitted, the auth flows
never touch it). -/
structure User where
  id : Identity
  name : String
  email : String
  password : Hashed
  createdAt : Nat
  updatedAt : Nat
deriving DecidableEq, Repr

/-- `domain.RefreshToken`: a session record row of the `refresh_tokens`
table. -/
structure RefreshTokenRec where
  id : Nat
  userID : Identity
  token : Tok
  deviceID : String
  userAgent : String
  expiresAt : Nat
  createdAt : Nat
deriving DecidableEq, Repr

/-- The `refresh_tokens` table, as the list of its rows. -/
abbrev Store := List RefreshTokenRec

/-- `refreshTokenRepository.Create`: `INSERT INTO refresh_tokens ...`. -/
def Store.create (s : Store) (r : RefreshTokenRec) : Store := s ++ [r]

/-- `refreshTokenRepository.FindByToken`:
`SELECT * FROM refresh_tokens WHERE token = $1`, `ErrNotFound` on no rows. -/
def Store.findByToken (s : Store) (t : Tok) : Option RefreshTokenRec :=
  s.find? fun r => r.token = t

/-- `refreshTokenRepository.DeleteByToken`:
`DELETE FROM refresh_tokens WHERE token = $1`. -/
def Store.deleteByToken (s : Store) (t : Tok) : Store :=
  s.filter fun r => r.token ≠ t

/-- `refreshTokenRepository.DeleteByUserID`:
`DELETE FROM refresh_tokens WHERE user_id = $1`. -/
def Store.deleteByUserID (s : Store) (uid : Identity) : Store :=
  s.filter fun r => r.userID ≠ uid

/-- `refreshTokenRepository.DeleteExpired`:
`DELETE FROM refresh_tokens WHERE expires_at < NOW()`. -/
def Store.deleteExpired (s : Store) (now : Nat) : Store :=
  s.filter fun r => ¬ r.expiresAt < now

/-- The `users` table. -/
abbrev Users := List User

/-- `userRepository.FindByEmail` (`ErrNotFound` as `none`). -/
def Users.findByEmail (us : Users) (email : String) : Option User :=
  us.find? fun u => u.email = email

/-- `userRepository.FindByID` (`ErrNotFound` as `none`). -/
def Users.findByID (us : Users) (id : Identity) : Option User :=
  us.find? fun u => u.id = id

/-- The domain sentinel errors of `internal/domain/errors.go`; wrapped
non-sentinel errors (`fmt.Errorf`) are carried as `internal msg`. -/
inductive Err where
  | notFound
  | alreadyExists
  | unauthorized
  | forbidden
  | invalidCredentials
  | tokenExpired
  | tokenInvalid
  | validation
  | internal (msg : String)
deriving DecidableEq, Repr

/-- `domain.LoginRequest`. -/
structure LoginRequest where
  email : String
  password : String
  deviceID : String
deriving DecidableEq, Repr

/-- `domain.RegisterRequest`. -/
structure RegisterRequest where
  name : String
  email : String
  password : String
deriving DecidableEq, Repr

/-- `domain.RefreshTokenRequest`. -/
structure RefreshTokenRequest where
  refreshToken : Tok
  deviceID : String
deriving DecidableEq, Repr

/-- `domain.AuthResponse`. -/
structure AuthResponse where
  accessToken : Tok
  refreshToken : Tok
  user : User
deriving DecidableEq, Repr

/-- The `uuid.New()` draws consumed by one `buildAuthResponse` call (plus
the user ID drawn by `Register`), made explicit. -/
structure FreshIDs where
  userID : Nat
  accessJti : Nat
  refreshJti : Nat
  recID : Nat
deriving DecidableEq, Repr

/-- `AuthService.buildAuthResponse`: generates both tokens, stores the
refresh token, and returns the response.  The record is built by the Go
struct literal that omits `UserAgent` (zero value `""`) and sets
`ExpiresAt: time.Now().Add(7 * 24 * time.Hour)`. -/
def buildAuthResponse (m : Manager) (store : Store) (user : User)
    (deviceID : String) (now : Nat) (fresh : FreshIDs) :
    Except Err AuthResponse × Store :=
  let accessToken := m.generateAccessToken user.id now fresh.accessJti
  let refreshTokenStr := m.generateRefreshToken user.id now fresh.refreshJti
  let rt : RefreshTokenRec :=
    { id := fresh.recID
      userID := user.id
      token := refreshTokenStr
      deviceID := deviceID
      userAgent := ""
      expiresAt := now + sevenDays
      createdAt := now }
  (Except.ok
    { accessToken := accessToken, refreshToken := refreshTokenStr, user := user },
   store.create rt)

/-- `AuthService.Register`: uniqueness check, hash, create user, issue.
Returns (result, users table, refresh-token table). -/
def Register (m : Manager) (users : Users) (store : Store)
    (req : RegisterRequest) (now : Nat) (fresh : FreshIDs) :
    Except Err AuthResponse × Users × Store :=
  match users.findByEmail req.email with
  | some _ => (Except.error Err.alreadyExists, users, store)
  | none =>
    let user : User :=
      { id := fresh.userID
        name := req.name
        email := req.email
        password := hashPassword req.password
        createdAt := now
        updatedAt := now }
    let (res, store') := buildAuthResponse m store user "register-device" now fresh
    (res, users ++ [user], store')

/-- `AuthService.Login`.  The `userAgent` argument is accepted but unused,
exactly as in the Go source. -/
def Login (m : Manager) (users : Users) (store : Store) (req : LoginRequest)
    (userAgent : String) (now : Nat) (fresh : FreshIDs) :
    Except Err AuthResponse × Store :=
  match users.findByEmail req.email with
  | none => (Except.error Err.invalidCredentials, store)
  | some user =>
    if checkPassword req.password user.password then
      buildAuthResponse m store user req.deviceID now fresh
    else
      (Except.error Err.invalidCredentials, store)

/-- `AuthService.RefreshTokens`: verify, look up, expiry check, rotate
(delete old strictly before issuing new), issue. -/
def RefreshTokens (m : Manager) (users : Users) (store : Store)
    (req : RefreshTokenRequest) (now : Nat) (fresh : FreshIDs) :
    Except Err AuthResponse × Store :=
  match m.parseRefreshToken req.refreshToken now with
  | none => (Except.error Err.tokenInvalid, store)
  | some claims =>
    match store.findByToken req.refreshToken with
    | none => (Except.error Err.tokenInvalid, store)
    | some storedToken =>
      if storedToken.expiresAt < now then
        (Except.error Err.tokenExpired, store.deleteByToken req.refreshToken)
      else
        let store' := store.deleteByToken req.refreshToken
        match users.findByID claims.userID with
        | none =>
          (Except.error (Err.internal "authService.RefreshTokens FindByID"), store')
        | some user => buildAuthResponse m store' user req.deviceID now fresh

/-- `AuthService.Logout`: revoke for one device or all devices. -/
def Logout (store : Store) (userID : Identity) (refreshToken : Tok)
    (allDevices : Bool) : Except Err Unit × Store :=
  if allDevices then
    (Except.ok (), store.deleteByUserID userID)
  else
    (Except.ok (), store.deleteByToken refreshToken)

/-- `strings.SplitN(s, " ", 2)` on a header given as a character list:
split at the first space only. -/
def splitN2 (acc : List Char) : List Char → List (List Char)
  | [] => [acc.reverse]
  | c :: rest =>
    if c = ' ' then [acc.reverse, rest] else splitN2 (c :: acc) rest

/-- `strings.EqualFold` restricted to the ASCII folding the middleware
needs (the expected scheme is `"bearer"`). -/
def eqFold : List Char → List Char → Bool
  | [], [] => true
  | x :: xs, y :: ys => x.toLower = y.toLower && eqFold xs ys
  | _, _ => false

/-- What the `Auth` middleware does to a request: abort with
`response.Unauthorized(c, msg)`, or set `user_id` in the context and call
`c.Next()`. -/
inductive AuthOutcome where
  | unauthorized (msg : String)
  | ok (userID : Identity)
deriving DecidableEq, Repr

/-- `jwt.Manager.parse` applied to a wire string: `decode` is the
base64/JSON decoding step of `jwt.ParseWithClaims` (an attacker-supplied
string may decode to any token, or to nothing). -/
def parseStr (decode : List Char → Option Tok) (s : List Char)
    (secret : Nat) (expectedType : TokenType) (now : Nat) : Option Claims :=
  (decode s).bind fun t => parseTok t secret expectedType now

/-- `middleware.Auth`: extract the bearer credential, verify it as an
access token, bind the user ID.  The absent `Authorization` header reaches
the Go code as `""`. -/
def Auth (m : Manager) (decode : List Char → Option Tok) (now : Nat)
    (authHeader : List Char) : AuthOutcome :=
  if authHeader = [] then
    .unauthorized "missing authorization header"
  else
    match splitN2 [] authHeader with
    | [scheme, value] =>
      if eqFold scheme "bearer".data then
        match parseStr decode value m.accessSecret .access now with
        | none => .unauthorized "invalid or expired access token"
        | some claims => .ok claims.userID
      else
        .unauthorized "invalid authorization header format"
    | _ => .unauthorized "invalid authorization header format"

/-- The outward shape of an auth-handler reply: HTTP status plus the
message the client can see. -/
structure HandlerReply where
  status : Nat
  message : String
deriving DecidableEq, Repr

/-- The error mapping of `AuthHandler.Login`: `ErrInvalidCredentials` ↦
401 `"invalid email or password"`, any other error ↦ 500, success ↦ 200. -/
def loginHandlerReply : Except Err AuthResponse → HandlerReply
  | .error e =>
    if e = Err.invalidCredentials then
      ⟨401, "invalid email or password"⟩
    else
      ⟨500, "an unexpected error occurred"⟩
  | .ok _ => ⟨200, "success"⟩

/-! ### Helper lemmas -/

/-- Successful parse exposes the checks it performed. -/
theorem parseTok_some_inv {t : Tok} {secret : Nat} {expected : TokenType}
    {now : Nat} {c : Claims} (h : parseTok t secret expected now = some c) :
    t.algHMAC = true ∧ t.key = secret ∧ now < t.expiresAt ∧
      t.tokenType = expected ∧
      c = { userID := t.userID, tokenType := t.tokenType,
            issuedAt := t.issuedAt, expiresAt := t.expiresAt, jti := t.jti } := by
  unfold parseTok at h
  split_ifs at h with h₁ h₂ h₃ h₄
  exact ⟨by simpa using h₁, by simpa using h₂, by simpa using h₃,
    by simpa using h₄, by simpa using h.symm⟩

/-- A deleted token can no longer be found. -/
theorem findByToken_deleteByToken (s : Store) (t : Tok) :
    (s.deleteByToken t).findByToken t = none := by
  simp only [Store.deleteByToken, Store.findByToken, List.find?_eq_none]
  intro r hr
  simp only [List.mem_filter, decide_eq_true_eq] at hr
  simpa using hr.2

/-- Deletion only removes rows. -/
theorem mem_of_mem_deleteByToken {s : Store} {t : Tok} {r : RefreshTokenRec}
    (h : r ∈ s.deleteByToken t) : r ∈ s :=
  List.mem_of_mem_filter h

/-- Bulk deletion only removes rows. -/
theorem mem_of_mem_deleteByUserID {s : Store} {uid : Identity}
    {r : RefreshTokenRec} (h : r ∈ s.deleteByUserID uid) : r ∈ s :=
  List.mem_of_mem_filter h

/-- Deleting a token that is not present leaves the table unchanged. -/
theorem deleteByToken_of_findByToken_none {s : Store} {t : Tok}
    (h : s.findByToken t = none) : s.deleteByToken t = s := by
  simp only [Store.findByToken, List.find?_eq_none] at h
  refine List.filter_eq_self.mpr fun r hr => ?_
  simpa using h r hr

/-- Bulk-deleting an identity with no records leaves the table unchanged. -/
theorem deleteByUserID_of_none {s : Store} {uid : Identity}
    (h : ∀ r ∈ s, r.userID ≠ uid) : s.deleteByUserID uid = s := by
  refine List.filter_eq_self.mpr fun r hr => ?_
  simpa using h r hr

/-- Single-token deletion is idempotent. -/
theorem deleteByToken_idem (s : Store) (t : Tok) :
    (s.deleteByToken t).deleteByToken t = s.deleteByToken t := by
  simp [Store.deleteByToken, List.filter_filter]

/-- Bulk deletion is idempotent. -/
theorem deleteByUserID_idem (s : Store) (uid : Identity) :
    (s.deleteByUserID uid).deleteByUserID uid = s.deleteByUserID uid := by
  simp [Store.deleteByUserID, List.filter_filter]

/-- `buildAuthResponse`, written out. -/
theorem buildAuthResponse_eq (m : Manager) (store : Store) (user : User)
    (deviceID : String) (now : Nat) (fresh : FreshIDs) :
    buildAuthResponse m store user deviceID now fresh =
      (Except.ok
        { accessToken := m.generateAccessToken user.id now fresh.accessJti
          refreshToken := m.generateRefreshToken user.id now fresh.refreshJti
          user := user },
       store ++
        [{ id := fresh.recID
           userID := user.id
           token := m.generateRefreshToken user.id now fresh.refreshJti
           deviceID := deviceID
           userAgent := ""
           expiresAt := now + sevenDays
           createdAt := now }]) := rfl

/-! ### Claim theorems -/

/-- Claim C3: round-trip — verifying a freshly issued token of either kind
with the same expected kind, at any instant before its expiry, succeeds and
returns claims carrying the same identity and the same kind. -/
theorem token_roundtrip (m : Manager) (uid : Identity) (now jti now₂ : Nat) :
    (now₂ < now + m.accessTTL →
      m.parseAccessToken (m.generateAccessToken uid now jti) now₂ =
        some { userID := uid, tokenType := .access, issuedAt := now,
               expiresAt := now + m.accessTTL, jti := jti }) ∧
    (now₂ < now + m.refreshTTL →
      m.parseRefreshToken (m.generateRefreshToken uid now jti) now₂ =
        some { userID := uid, tokenType := .refresh, issuedAt := now,
               expiresAt := now + m.refreshTTL, jti := jti }) := by
  constructor <;> intro h <;>
    simp [Manager.parseAccessToken, Manager.parseRefreshToken,
      Manager.generateAccessToken, Manager.generateRefreshToken,
      generate, parseTok, h]

/-- Witness for C3 at a concrete manager, identity and clock. -/
theorem token_roundtrip_witness :
    (105 < 100 + (⟨1, 2, 10, 20⟩ : Manager).accessTTL) ∧
    Manager.parseAccessToken ⟨1, 2, 10, 20⟩
        (Manager.generateAccessToken ⟨1, 2, 10, 20⟩ 5 100 7) 105 =
      some { userID := 5, tokenType := .access, issuedAt := 100,
             expiresAt := 100 + (⟨1, 2, 10, 20⟩ : Manager).accessTTL, jti := 7 } :=
  ⟨by decide, (token_roundtrip ⟨1, 2, 10, 20⟩ 5 100 7 105).1 (by decide)⟩

/-- Claim C4: kind separation — a token issued with one kind never verifies
under the other expected kind (whether or not the two secrets coincide),
and an access-shaped token signed with the refresh secret is rejected by
the `Auth` middleware with Unauthorized. -/
theorem kind_separation (m : Manager) (uid : Identity) (now jti now₂ : Nat)
    (decode : List Char → Option Tok) (s : List Char) (t : Tok) :
    (m.parseAccessToken (m.generateRefreshToken uid now jti) now₂ = none) ∧
    (m.parseRefreshToken (m.generateAccessToken uid now jti) now₂ = none) ∧
    (m.accessSecret ≠ m.refreshSecret → t.tokenType = .access →
      t.key = m.refreshSecret → decode s = some t →
      Auth m decode now₂ ("Bearer ".data ++ s) =
        .unauthorized "invalid or expired access token") := by
  refine ⟨?_, ?_, ?_⟩
  · by_cases hk : m.refreshSecret = m.accessSecret <;>
      simp [Manager.parseAccessToken, Manager.generateRefreshToken,
        generate, parseTok, hk]
  · by_cases hk : m.accessSecret = m.refreshSecret <;>
      simp [Manager.parseRefreshToken, Manager.generateAccessToken,
        generate, parseTok, hk]
  · intro hsec htt hkey hdec
    have hsplit :
        splitN2 [] ('B' :: 'e' :: 'a' :: 'r' :: 'e' :: 'r' :: ' ' :: s) =
          [['B', 'e', 'a', 'r', 'e', 'r'], s] := by
      simp [splitN2]
    have hfold :
        eqFold ['B', 'e', 'a', 'r', 'e', 'r'] ['b', 'e', 'a', 'r', 'e', 'r'] =
          true := by decide
    have hkey' : t.key ≠ m.accessSecret := by
      rw [hkey]; exact fun h => hsec h.symm
    simp [Auth, hsplit, hfold, String.data, parseStr, hdec, parseTok, hkey']

/-- Witness for C4 at a concrete manager and crafted token. -/
theorem kind_separation_witness :
    ((⟨1, 2, 10, 20⟩ : Manager).accessSecret ≠
        (⟨1, 2, 10, 20⟩ : Manager).refreshSecret) ∧
    (Tok.tokenType ⟨5, .access, 0, 100, 7, 2, true⟩ = .access) ∧
    Auth ⟨1, 2, 10, 20⟩ (fun _ => some ⟨5, .access, 0, 100, 7, 2, true⟩) 3
        ("Bearer ".data ++ "x".data) =
      .unauthorized "invalid or expired access token" :=
  ⟨by decide, by decide,
    (kind_separation ⟨1, 2, 10, 20⟩ 5 0 7 3
        (fun _ => some ⟨5, .access, 0, 100, 7, 2, true⟩) "x".data
        ⟨5, .access, 0, 100, 7, 2, true⟩).2.2
      (by decide) (by decide) (by decide) rfl⟩

/-- The expires-at claim of the refresh token inside a successful auth
response. -/
def respRefreshExpiry : Except Err AuthResponse → Option Nat
  | .ok resp => some resp.refreshToken.expiresAt
  | .error _ => none

/-- Claim C10: the user-agent field of every session record created by
Register, Login or Refresh is the empty string, and `Login`'s `userAgent`
argument has no effect on its result. -/
theorem user_agent_never_populated (m : Manager) (users : Users)
    (store : Store) (lreq : RegisterRequest) (req : LoginRequest)
    (freq : RefreshTokenRequest) (ua ua' : String) (now : Nat)
    (fresh : FreshIDs) :
    (Login m users store req ua now fresh =
      Login m users store req ua' now fresh) ∧
    (∀ r ∈ (Login m users store req ua now fresh).2,
      r ∈ store ∨ r.userAgent = "") ∧
    (∀ r ∈ (Register m users store lreq now fresh).2.2,
      r ∈ store ∨ r.userAgent = "") ∧
    (∀ r ∈ (RefreshTokens m users store freq now fresh).2,
      r ∈ store ∨ r.userAgent = "") := by
  refine ⟨rfl, ?_, ?_, ?_⟩
  · intro r hr
    unfold Login at hr
    rcases hfind : users.findByEmail req.email with _ | user <;>
      rw [hfind] at hr
    · exact Or.inl (by simpa using hr)
    · by_cases hpw : checkPassword req.password user.password <;>
        simp only [hpw, if_true, if_false, Bool.false_eq_true,
          buildAuthResponse_eq] at hr
      · rcases List.mem_append.mp hr with h | h
        · exact Or.inl h
        · exact Or.inr (by simp at h; simp [h])
      · exact Or.inl (by simpa using hr)
  · intro r hr
    unfold Register at hr
    rcases hfind : users.findByEmail lreq.email with _ | user <;>
      rw [hfind] at hr
    · simp only [buildAuthResponse_eq] at hr
      rcases List.mem_append.mp hr with h | h
      · exact Or.inl h
      · exact Or.inr (by simp at h; simp [h])
    · exact Or.inl (by simpa using hr)
  · intro r hr
    unfold RefreshTokens at hr
    rcases hp : m.parseRefreshToken freq.refreshToken now with _ | c <;>
      rw [hp] at hr
    · exact Or.inl (by simpa using hr)
    rcases hf : store.findByToken freq.refreshToken with _ | rec <;>
      rw [hf] at hr
    · exact Or.inl (by simpa using hr)
    by_cases hexp : rec.expiresAt < now <;>
      simp only [hexp, if_true, if_false] at hr
    · exact Or.inl (mem_of_mem_deleteByToken (by simpa using hr))
    rcases hu : users.findByID c.userID with _ | user <;> rw [hu] at hr
    · exact Or.inl (mem_of_mem_deleteByToken (by simpa using hr))
    · simp only [buildAuthResponse_eq] at hr
      rcases List.mem_append.mp hr with h | h
      · exact Or.inl (mem_of_mem_deleteByToken h)
      · exact Or.inr (by simp at h; simp [h])

/-- Witness for C10 at a concrete store and requests. -/
theorem user_agent_never_populated_witness :
    ∀ r ∈ (Login ⟨1, 2, 10, 20⟩ [⟨5, "n", "e", ⟨"p"⟩, 0, 0⟩] []
        ⟨"e", "p", "d"⟩ "Mozilla" 0 ⟨0, 1, 2, 3⟩).2,
      r ∈ ([] : Store) ∨ r.userAgent = "" :=
  (user_agent_never_populated ⟨1, 2, 10, 20⟩ [⟨5, "n", "e", ⟨"p"⟩, 0, 0⟩] []
    ⟨"n", "e", "p"⟩ ⟨"e", "p", "d"⟩ ⟨⟨5, .refresh, 0, 20, 7, 2, true⟩, "d"⟩
    "Mozilla" "curl" 0 ⟨0, 1, 2, 3⟩).2.1

/-- Claim C2, evaluated at a failing input: with refresh TTL = 1 hour the
signed refresh token's expires-at claim is 1 hour from now, while the
stored record's expiry is the hard-coded 7 days from now — the two derive
from different constants, so they differ for any refresh TTL ≠ 7 days. -/
theorem record_expiry_ignores_refresh_ttl :
    respRefreshExpiry
        (buildAuthResponse ⟨1, 2, 900000000000, 3600000000000⟩ []
          ⟨5, "n", "e", ⟨"p"⟩, 0, 0⟩ "dev" 0 ⟨0, 1, 2, 3⟩).1 =
      some 3600000000000 ∧
    ((buildAuthResponse ⟨1, 2, 900000000000, 3600000000000⟩ []
          ⟨5, "n", "e", ⟨"p"⟩, 0, 0⟩ "dev" 0 ⟨0, 1, 2, 3⟩).2.map
        RefreshTokenRec.expiresAt) = [604800000000000] ∧
    (604800000000000 : Nat) ≠ 3600000000000 := by
  refine ⟨rfl, rfl, by decide⟩

/-- Claim C5: a login against an email with no account and a login against
an existing account with a wrong password return the same error, leave the
store unchanged in the same way, and produce the same outward handler
reply. -/
theorem login_indistinguishable (m : Manager) (users : Users) (store : Store)
    (reqA reqB : LoginRequest) (uaA uaB : String) (now : Nat)
    (fresh : FreshIDs) (u : User)
    (hA : users.findByEmail reqA.email = none)
    (hB : users.findByEmail reqB.email = some u)
    (hpw : checkPassword reqB.password u.password = false) :
    Login m users store reqA uaA now fresh =
      (Except.error Err.invalidCredentials, store) ∧
    Login m users store reqB uaB now fresh =
      (Except.error Err.invalidCredentials, store) ∧
    Login m users store reqA uaA now fresh =
      Login m users store reqB uaB now fresh ∧
    loginHandlerReply (Login m users store reqA uaA now fresh).1 =
      ⟨401, "invalid email or password"⟩ ∧
    loginHandlerReply (Login m users store reqA uaA now fresh).1 =
      loginHandlerReply (Login m users store reqB uaB now fresh).1 := by
  have h₁ : Login m users store reqA uaA now fresh =
      (Except.error Err.invalidCredentials, store) := by
    simp [Login, hA]
  have h₂ : Login m users store reqB uaB now fresh =
      (Except.error Err.invalidCredentials, store) := by
    simp [Login, hB, hpw]
  refine ⟨h₁, h₂, h₁.trans h₂.symm, ?_, ?_⟩ <;>
    simp [h₁, h₂, loginHandlerReply]

/-- Witness for C5: one registered user, a login for an unknown email and a
login for the known email with the wrong password. -/
theorem login_indistinguishable_witness :
    Users.findByEmail [⟨5, "n", "b@x", ⟨"pw"⟩, 0, 0⟩] "a@x" = none ∧
    checkPassword "wrong" (Hashed.mk "pw") = false ∧
    Login ⟨1, 2, 10, 20⟩ [⟨5, "n", "b@x", ⟨"pw"⟩, 0, 0⟩] []
        ⟨"a@x", "whatever", "d1"⟩ "ua1" 0 ⟨0, 1, 2, 3⟩ =
      Login ⟨1, 2, 10, 20⟩ [⟨5, "n", "b@x", ⟨"pw"⟩, 0, 0⟩] []
        ⟨"b@x", "wrong", "d2"⟩ "ua2" 0 ⟨0, 1, 2, 3⟩ :=
  ⟨by decide, by decide,
    (login_indistinguishable ⟨1, 2, 10, 20⟩ [⟨5, "n", "b@x", ⟨"pw"⟩, 0, 0⟩] []
      ⟨"a@x", "whatever", "d1"⟩ ⟨"b@x", "wrong", "d2"⟩ "ua1" "ua2" 0
      ⟨0, 1, 2, 3⟩ ⟨5, "n", "b@x", ⟨"pw"⟩, 0, 0⟩ (by decide) (by decide)
      (by decide)).2.2.1⟩

/-- Claim C8: Logout always succeeds; all-devices mode removes exactly the
identity's records, single mode removes exactly the records matching the
token; both modes are idempotent and deleting something absent is a no-op
that leaves the store unchanged. -/
theorem logout_idempotent_total (store : Store) (uid : Identity) (t : Tok)
    (ad : Bool) :
    ((Logout store uid t ad).1 = Except.ok ()) ∧
    ((Logout store uid t true).2 = store.deleteByUserID uid) ∧
    ((Logout store uid t false).2 = store.deleteByToken t) ∧
    (∀ r ∈ (Logout store uid t true).2, r ∈ store ∧ r.userID ≠ uid) ∧
    (∀ r ∈ store, r.userID ≠ uid → r ∈ (Logout store uid t true).2) ∧
    (∀ r ∈ (Logout store uid t false).2, r ∈ store ∧ r.token ≠ t) ∧
    (∀ r ∈ store, r.token ≠ t → r ∈ (Logout store uid t false).2) ∧
    ((Logout (Logout store uid t ad).2 uid t ad).2 =
      (Logout store uid t ad).2) ∧
    (store.findByToken t = none → (Logout store uid t false).2 = store) ∧
    ((∀ r ∈ store, r.userID ≠ uid) → (Logout store uid t true).2 = store) := by
  refine ⟨?_, rfl, rfl, ?_, ?_, ?_, ?_, ?_, ?_, ?_⟩
  · cases ad <;> rfl
  · intro r hr
    simp only [Logout, if_true] at hr
    exact ⟨mem_of_mem_deleteByUserID hr, by
      have := (List.mem_filter.mp hr).2; simpa using this⟩
  · intro r hr hne
    simp only [Logout, if_true, Store.deleteByUserID]
    exact List.mem_filter.mpr ⟨hr, by simpa using hne⟩
  · intro r hr
    simp only [Logout, if_false, Bool.false_eq_true] at hr
    exact ⟨mem_of_mem_deleteByToken hr, by
      have := (List.mem_filter.mp hr).2; simpa using this⟩
  · intro r hr hne
    simp only [Logout, if_false, Bool.false_eq_true, Store.deleteByToken]
    exact List.mem_filter.mpr ⟨hr, by simpa using hne⟩
  · cases ad
    · simpa [Logout] using deleteByToken_idem store t
    · simpa [Logout] using deleteByUserID_idem store uid
  · intro h
    simpa [Logout] using deleteByToken_of_findByToken_none h
  · intro h
    simpa [Logout] using deleteByUserID_of_none h

/-- Witness for C8 at a concrete two-record store. -/
theorem logout_idempotent_total_witness :
    Store.findByToken [⟨1, 5, ⟨5, .refresh, 0, 20, 7, 2, true⟩, "d", "", 100, 0⟩]
        ⟨6, .refresh, 0, 20, 8, 2, true⟩ = none ∧
    (Logout [⟨1, 5, ⟨5, .refresh, 0, 20, 7, 2, true⟩, "d", "", 100, 0⟩] 5
        ⟨6, .refresh, 0, 20, 8, 2, true⟩ false).2 =
      [⟨1, 5, ⟨5, .refresh, 0, 20, 7, 2, true⟩, "d", "", 100, 0⟩] :=
  ⟨by decide,
    (logout_idempotent_total
        [⟨1, 5, ⟨5, .refresh, 0, 20, 7, 2, true⟩, "d", "", 100, 0⟩] 5
        ⟨6, .refresh, 0, 20, 8, 2, true⟩ false).2.2.2.2.2.2.2.2.1
      (by decide)⟩

/-- Claim C6: a Refresh whose token verifies and whose record is found but
has an expiry in the past deletes the record and fails with TokenExpired:
no tokens are issued, no new record is created, and the only change to the
store is the deletion. -/
theorem refresh_expired_record (m : Manager) (users : Users) (store : Store)
    (t : Tok) (dev : String) (now : Nat) (fresh : FreshIDs) (c : Claims)
    (r : RefreshTokenRec)
    (hp : m.parseRefreshToken t now = some c)
    (hf : store.findByToken t = some r)
    (he : r.expiresAt < now) :
    RefreshTokens m users store ⟨t, dev⟩ now fresh =
      (Except.error Err.tokenExpired, store.deleteByToken t) ∧
    (∀ x ∈ (RefreshTokens m users store ⟨t, dev⟩ now fresh).2, x ∈ store) ∧
    (RefreshTokens m users store ⟨t, dev⟩ now fresh).2.findByToken t =
      none := by
  have heq : RefreshTokens m users store ⟨t, dev⟩ now fresh =
      (Except.error Err.tokenExpired, store.deleteByToken t) := by
    simp [RefreshTokens, hp, hf, he]
  refine ⟨heq, ?_, ?_⟩
  · intro x hx
    rw [heq] at hx
    exact mem_of_mem_deleteByToken hx
  · rw [heq]
    exact findByToken_deleteByToken store t

/-- Witness for C6: a token that still verifies but whose stored record
expired at time 100, refreshed at time 150. -/
theorem refresh_expired_record_witness :
    RefreshTokens ⟨1, 2, 10, 1000⟩ [⟨5, "n", "e", ⟨"p"⟩, 0, 0⟩]
        [⟨1, 5, ⟨5, .refresh, 0, 1000, 7, 2, true⟩, "d", "", 100, 0⟩]
        ⟨⟨5, .refresh, 0, 1000, 7, 2, true⟩, "d"⟩ 150 ⟨0, 1, 2, 3⟩ =
      (Except.error Err.tokenExpired, []) :=
  (refresh_expired_record ⟨1, 2, 10, 1000⟩ [⟨5, "n", "e", ⟨"p"⟩, 0, 0⟩]
      [⟨1, 5, ⟨5, .refresh, 0, 1000, 7, 2, true⟩, "d", "", 100, 0⟩]
      ⟨5, .refresh, 0, 1000, 7, 2, true⟩ "d" 150 ⟨0, 1, 2, 3⟩
      ⟨5, .refresh, 0, 1000, 7⟩
      ⟨1, 5, ⟨5, .refresh, 0, 1000, 7, 2, true⟩, "d", "", 100, 0⟩
      (by decide) (by decide) (by decide)).1

/-- Claim C9: when a Refresh fails after the rotation delete (the user
lookup by the token's subject comes back not-found), the old record is
already gone and no replacement exists: the store is left changed, equal to
the original minus the consumed token's record. -/
theorem refresh_failure_after_rotation (m : Manager) (users : Users)
    (store : Store) (t : Tok) (dev : String) (now : Nat) (fresh : FreshIDs)
    (c : Claims) (r : RefreshTokenRec)
    (hp : m.parseRefreshToken t now = some c)
    (hf : store.findByToken t = some r)
    (he : ¬ r.expiresAt < now)
    (hu : users.findByID c.userID = none) :
    RefreshTokens m users store ⟨t, dev⟩ now fresh =
      (Except.error (Err.internal "authService.RefreshTokens FindByID"),
        store.deleteByToken t) ∧
    (RefreshTokens m users store ⟨t, dev⟩ now fresh).2.findByToken t =
      none ∧
    (∀ x ∈ (RefreshTokens m users store ⟨t, dev⟩ now fresh).2, x ∈ store) := by
  have heq : RefreshTokens m users store ⟨t, dev⟩ now fresh =
      (Except.error (Err.internal "authService.RefreshTokens FindByID"),
        store.deleteByToken t) := by
    simp [RefreshTokens, hp, hf, he, hu]
  refine ⟨heq, ?_, ?_⟩
  · rw [heq]
    exact findByToken_deleteByToken store t
  · intro x hx
    rw [heq] at hx
    exact mem_of_mem_deleteByToken hx

/-- Witness for C9: a live record whose subject no longer exists in the
users table. -/
theorem refresh_failure_after_rotation_witness :
    RefreshTokens ⟨1, 2, 10, 1000⟩ []
        [⟨1, 5, ⟨5, .refresh, 0, 1000, 7, 2, true⟩, "d", "", 500, 0⟩]
        ⟨⟨5, .refresh, 0, 1000, 7, 2, true⟩, "d"⟩ 150 ⟨0, 1, 2, 3⟩ =
      (Except.error (Err.internal "authService.RefreshTokens FindByID"),
        []) :=
  (refresh_failure_after_rotation ⟨1, 2, 10, 1000⟩ []
      [⟨1, 5, ⟨5, .refresh, 0, 1000, 7, 2, true⟩, "d", "", 500, 0⟩]
      ⟨5, .refresh, 0, 1000, 7, 2, true⟩ "d" 150 ⟨0, 1, 2, 3⟩
      ⟨5, .refresh, 0, 1000, 7⟩
      ⟨1, 5, ⟨5, .refresh, 0, 1000, 7, 2, true⟩, "d", "", 500, 0⟩
      (by decide) (by decide) (by decide) (by decide)).1

/-- `strings.SplitN(s, " ", 2)` yields one or two parts. -/
theorem splitN2_length (acc s : List Char) :
    (splitN2 acc s).length = 1 ∨ (splitN2 acc s).length = 2 := by
  induction s generalizing acc with
  | nil => left; rfl
  | cons c rest ih =>
    by_cases h : c = ' '
    · right; simp [splitN2, h]
    · simpa [splitN2, h] using ih (c :: acc)

/-- Inserting a row with a different token cannot make a token findable. -/
theorem findByToken_create (s : Store) (r : RefreshTokenRec) (t : Tok)
    (hs : s.findByToken t = none) (hr : r.token ≠ t) :
    (s.create r).findByToken t = none := by
  simp only [Store.create, Store.findByToken] at hs ⊢
  rw [List.find?_append, hs]
  simp [List.find?, hr]

/-- Claim C7: the request gate answers Unauthorized when the bearer header
is absent, does not split into exactly one scheme-value pair, has a
non-bearer scheme, or carries a value that fails access-token verification
for any reason; when verification succeeds it binds the token's identity.
The header splits into one or two parts, so these cases are exhaustive. -/
theorem auth_gate (m : Manager) (decode : List Char → Option Tok)
    (now : Nat) (hdr scheme value : List Char) (c : Claims) :
    (Auth m decode now [] = .unauthorized "missing authorization header") ∧
    ((splitN2 [] hdr).length = 1 ∨ (splitN2 [] hdr).length = 2) ∧
    (hdr ≠ [] → splitN2 [] hdr = [scheme] →
      Auth m decode now hdr =
        .unauthorized "invalid authorization header format") ∧
    (hdr ≠ [] → splitN2 [] hdr = [scheme, value] →
      eqFold scheme "bearer".data = false →
      Auth m decode now hdr =
        .unauthorized "invalid authorization header format") ∧
    (hdr ≠ [] → splitN2 [] hdr = [scheme, value] →
      eqFold scheme "bearer".data = true →
      parseStr decode value m.accessSecret .access now = none →
      Auth m decode now hdr =
        .unauthorized "invalid or expired access token") ∧
    (hdr ≠ [] → splitN2 [] hdr = [scheme, value] →
      eqFold scheme "bearer".data = true →
      parseStr decode value m.accessSecret .access now = some c →
      Auth m decode now hdr = .ok c.userID) := by
  refine ⟨rfl, splitN2_length [] hdr, ?_, ?_, ?_, ?_⟩
  · intro hne hs
    simp [Auth, hne, hs]
  · intro hne hs hb
    simp [Auth, hne, hs, hb]
  · intro hne hs hb hp
    simp [Auth, hne, hs, hb, hp]
  · intro hne hs hb hp
    simp [Auth, hne, hs, hb, hp]

/-- Witness for C7: a well-formed bearer header whose token verifies. -/
theorem auth_gate_witness :
    ("Bearer x".data ≠ ([] : List Char)) ∧
    splitN2 [] "Bearer x".data = ["Bearer".data, "x".data] ∧
    eqFold "Bearer".data "bearer".data = true ∧
    parseStr (fun _ => some ⟨5, .access, 0, 100, 7, 1, true⟩) "x".data
        (Manager.accessSecret ⟨1, 2, 10, 20⟩) .access 3 =
      some ⟨5, .access, 0, 100, 7⟩ ∧
    Auth ⟨1, 2, 10, 20⟩ (fun _ => some ⟨5, .access, 0, 100, 7, 1, true⟩) 3
        "Bearer x".data = .ok 5 :=
  ⟨by decide, by decide, by decide, by decide,
    (auth_gate ⟨1, 2, 10, 20⟩ (fun _ => some ⟨5, .access, 0, 100, 7, 1, true⟩)
        3 "Bearer x".data "Bearer".data "x".data
        ⟨5, .access, 0, 100, 7⟩).2.2.2.2.2
      (by decide) (by decide) (by decide) (by decide)⟩

/-- Claim C1: refresh tokens are single-use — after a successful Refresh
whose newly minted refresh token differs from the consumed one (the fresh
random token ID guarantees this), the resulting store is exactly the old
store with the consumed token's record deleted before the new record was
inserted; the consumed token is no longer findable, its signature still
verifies at any instant before its expiry, and a second Refresh presenting
it fails with TokenInvalid. -/
theorem refresh_token_single_use (m : Manager) (users users₂ : Users)
    (store : Store) (t : Tok) (dev dev₂ : String) (now now₂ : Nat)
    (fresh fresh₂ : FreshIDs) (resp : AuthResponse) (store₁ : Store)
    (hsucc : RefreshTokens m users store ⟨t, dev⟩ now fresh =
      (Except.ok resp, store₁))
    (hnew : resp.refreshToken ≠ t)
    (hexp : now₂ < t.expiresAt) :
    (∃ newRec, store₁ = (store.deleteByToken t).create newRec ∧
      newRec.token = resp.refreshToken) ∧
    store₁.findByToken t = none ∧
    (∃ c₂, m.parseRefreshToken t now₂ = some c₂) ∧
    (RefreshTokens m users₂ store₁ ⟨t, dev₂⟩ now₂ fresh₂).1 =
      Except.error Err.tokenInvalid := by
  unfold RefreshTokens at hsucc
  rcases hp : m.parseRefreshToken t now with _ | c <;>
    simp only [hp] at hsucc
  · simp at hsucc
  rcases hf : store.findByToken t with _ | r <;> simp only [hf] at hsucc
  · simp at hsucc
  by_cases hrec : r.expiresAt < now <;>
    simp only [hrec, if_true, if_false] at hsucc
  · simp at hsucc
  rcases hu : users.findByID c.userID with _ | user <;>
    simp only [hu] at hsucc
  · simp at hsucc
  rw [buildAuthResponse_eq] at hsucc
  simp only [Prod.mk.injEq, Except.ok.injEq] at hsucc
  obtain ⟨hresp, hstore⟩ := hsucc
  have hfind₁ : store₁.findByToken t = none := by
    rw [← hstore]
    refine findByToken_create _ _ _ (findByToken_deleteByToken store t) ?_
    have : m.generateRefreshToken user.id now fresh.refreshJti =
        resp.refreshToken := by rw [← hresp]
    rw [this]
    exact hnew
  obtain ⟨halg, hkey, -, htt, -⟩ := parseTok_some_inv hp
  have hp₂ : m.parseRefreshToken t now₂ =
      some { userID := t.userID, tokenType := t.tokenType,
             issuedAt := t.issuedAt, expiresAt := t.expiresAt, jti := t.jti } := by
    simp [Manager.parseRefreshToken, parseTok, halg, hkey, htt, hexp]
  refine ⟨?_, hfind₁, ⟨_, hp₂⟩, ?_⟩
  · exact ⟨⟨fresh.recID, user.id,
      m.generateRefreshToken user.id now fresh.refreshJti,
      dev, "", now + sevenDays, now⟩, hstore.symm, by rw [← hresp]⟩
  · simp [RefreshTokens, hp₂, hfind₁]

/-- Witness for C1: a concrete successful rotation followed by a replay of
the consumed token, which fails with TokenInvalid. -/
theorem refresh_token_single_use_witness :
    RefreshTokens ⟨1, 2, 10, 20⟩ [⟨5, "n", "e", ⟨"p"⟩, 0, 0⟩]
        [⟨1, 5, ⟨5, .refresh, 0, 20, 9, 2, true⟩, "d", "", 100, 0⟩]
        ⟨⟨5, .refresh, 0, 20, 9, 2, true⟩, "d1"⟩ 3 ⟨0, 11, 12, 13⟩ =
      (Except.ok ⟨⟨5, .access, 3, 13, 11, 1, true⟩,
          ⟨5, .refresh, 3, 23, 12, 2, true⟩, ⟨5, "n", "e", ⟨"p"⟩, 0, 0⟩⟩,
        [⟨13, 5, ⟨5, .refresh, 3, 23, 12, 2, true⟩, "d1", "",
          604800000000003, 3⟩]) ∧
    (RefreshTokens ⟨1, 2, 10, 20⟩ [⟨5, "n", "e", ⟨"p"⟩, 0, 0⟩]
        [⟨13, 5, ⟨5, .refresh, 3, 23, 12, 2, true⟩, "d1", "",
          604800000000003, 3⟩]
        ⟨⟨5, .refresh, 0, 20, 9, 2, true⟩, "d2"⟩ 4 ⟨0, 14, 15, 16⟩).1 =
      Except.error Err.tokenInvalid :=
  ⟨rfl,
    (refresh_token_single_use ⟨1, 2, 10, 20⟩ [⟨5, "n", "e", ⟨"p"⟩, 0, 0⟩]
        [⟨5, "n", "e", ⟨"p"⟩, 0, 0⟩]
        [⟨1, 5, ⟨5, .refresh, 0, 20, 9, 2, true⟩, "d", "", 100, 0⟩]
        ⟨5, .refresh, 0, 20, 9, 2, true⟩ "d1" "d2" 3 4 ⟨0, 11, 12, 13⟩
        ⟨0, 14, 15, 16⟩
        ⟨⟨5, .access, 3, 13, 11, 1, true⟩, ⟨5, .refresh, 3, 23, 12, 2, true⟩,
          ⟨5, "n", "e", ⟨"p"⟩, 0, 0⟩⟩
        [⟨13, 5, ⟨5, .refresh, 3, 23, 12, 2, true⟩, "d1", "",
          604800000000003, 3⟩]
        rfl (by decide) (by decide)).2.2.2⟩

end TodoApp
